import Mathlib

/-!
Verification of the webhook message-ingestion service.

The definitions below are a shallow embedding of the repository's core:
* `app/models.py` — payload validation (`WebhookPayload`, `validate_e164`),
  the persisted `Message` row;
* `app/storage.py` — `insert_message`;
* `app/main.py` — `verify_signature`, the `webhook` handler,
  `get_messages`, `get_stats`.

Modelling conventions:
* timezone-aware datetimes are modelled as points `Int` on a linear
  timeline (only order and equality of timestamps are used by the code);
* request bodies are byte lists `List Nat`;
* the HMAC-SHA256 hex digest is an opaque function parameter
  `hmacHex : String → List Nat → String` (secret, raw body ↦ lowercase hex);
  the handler only ever compares its output for equality, so the claims
  about control flow are stated for every such function;
* database faults that do not depend on the store contents (a lost
  connection, an integrity-constraint violation other than the
  `message_id` primary-key conflict) are injected through a `DbFault`
  parameter; `DbFault.nofault` is the ordinary path where the only
  possible `IntegrityError` is the primary-key uniqueness conflict.
-/

/-- A persisted row of the `messages` table (`app/models.py`, class
`Message`).  `created_at` is the server-assigned insertion instant
(`server_default=func.now()` in the source), passed in as `now` below. -/
structure Msg where
  message_id : String
  from_msisdn : String
  to_msisdn : String
  ts : Int
  text : Option String
  created_at : Int
deriving DecidableEq

/-- An inbound webhook payload after JSON parsing (`app/models.py`, class
`WebhookPayload`): fields as supplied by the caller, before the pydantic
validators run. -/
structure WebhookPayload where
  message_id : String
  from_msisdn : String
  to_msisdn : String
  ts : Int
  text : Option String
deriving DecidableEq

/-- `app/models.py`, `WebhookPayload.validate_e164`: Python
`re.match(r'^\+\d+$', v)`.  In Python's `re`, `$` matches at the end of
the string or just before a newline at the end of the string, so the
pattern also accepts a value with exactly one trailing newline after the
digits.  (`\d` is modelled as the ASCII digit class.) -/
def validate_e164 (s : String) : Bool :=
  match s.data with
  | '+' :: rest =>
      let core := if rest.getLast? = some '\n' then rest.dropLast else rest
      !core.isEmpty && core.all Char.isDigit
  | _ => false

/-- The address format as the specification words it: a leading `+`
followed by one or more digits and nothing else.  This is the
spec-side definition used as the comparison point for the refinement
claim about `validate_e164`; it is intentionally not taken from the
source. -/
def spec_e164 (s : String) : Bool :=
  match s.data with
  | '+' :: rest => !rest.isEmpty && rest.all Char.isDigit
  | _ => false

/-- The pydantic validation of `WebhookPayload` (`app/models.py`):
`message_id` has `min_length=1`, `from`/`to` must pass `validate_e164`,
`text` (when present) has `max_length=4096`. -/
def validate_payload (p : WebhookPayload) : Bool :=
  decide (1 ≤ p.message_id.length) &&
  validate_e164 p.from_msisdn &&
  validate_e164 p.to_msisdn &&
  (match p.text with
   | none => true
   | some t => decide (t.length ≤ 4096))

/-- Construction of the row inserted by `insert_message`
(`app/storage.py`): the payload fields plus the server-assigned
`created_at`. -/
def mkMsg (p : WebhookPayload) (now : Int) : Msg :=
  ⟨p.message_id, p.from_msisdn, p.to_msisdn, p.ts, p.text, now⟩

/-- Environment-injected persistence outcomes for a commit, beyond the
store contents themselves.  `integrityFault` stands for an
`IntegrityError` raised by a constraint other than the `message_id`
primary-key conflict (e.g. a NOT NULL violation when a field bypassed
validation); `connectionFault` stands for a non-integrity failure such
as a lost connection. -/
inductive DbFault where
  | nofault
  | integrityFault
  | connectionFault
deriving DecidableEq

/-- A persistence failure that is not translated into the duplicate
signal (the spec's `StoreError`). -/
inductive StoreError where
  | storeError
deriving DecidableEq

/-- `app/storage.py`, `insert_message`: adds the row and commits.
The commit raises `IntegrityError` when the `message_id` primary key is
already present (or when an injected unrelated integrity fault fires);
the handler catches `IntegrityError`, rolls back (store unchanged) and
returns `False`; a successful commit returns `True`.  Any other
exception (modelled by `connectionFault`) propagates. -/
def insert_message (db : List Msg) (p : WebhookPayload) (now : Int)
    (fault : DbFault) : Except StoreError (Bool × List Msg) :=
  match fault with
  | .connectionFault => .error .storeError
  | .integrityFault => .ok (false, db)
  | .nofault =>
      if db.any (fun m => m.message_id == p.message_id) then
        .ok (false, db)
      else
        .ok (true, db ++ [mkMsg p now])

/-- Terminal classification of an ingestion request (`app/main.py`):
`created`/`duplicate` are the 200 outcomes, `invalidSignature` the 401,
`notConfigured` the 503 for a missing secret, `invalidPayload` the 422
from pydantic, `internalError` a propagated storage failure. -/
inductive WebhookOutcome where
  | created
  | duplicate
  | invalidSignature
  | notConfigured
  | invalidPayload
  | internalError
deriving DecidableEq

/-- `app/main.py`, `verify_signature`: 503 when the secret is unset
(empty string is falsy), 401 when the `X-Signature` header is absent or
empty (also falsy), 401 when `hmac.compare_digest` finds the computed
lowercase-hex digest and the provided signature unequal; `none` means
the request may proceed. -/
def verify_signature (secret : String)
    (hmacHex : String → List Nat → String) (body : List Nat)
    (xSig : Option String) : Option WebhookOutcome :=
  if secret = "" then some .notConfigured
  else
    match xSig with
    | none => some .invalidSignature
    | some s =>
        if s = "" then some .invalidSignature
        else if hmacHex secret body = s then none
        else some .invalidSignature

/-- Result of one ingestion request: the outcome classification, the
response body (`some "ok"` stands for the JSON `\x7b"status":"ok"\x7d`
returned on the success paths; `none` stands for the framework-supplied
error body), and the store contents afterwards. -/
structure WebhookResult where
  outcome : WebhookOutcome
  body : Option String
  db : List Msg
deriving DecidableEq

/-- `app/main.py`, the `webhook` route.  FastAPI resolves the route's
dependencies (here `verify_signature`) before validating the body
model, so an authentication failure precedes payload validation; a
payload failing the pydantic validators is rejected with 422 before the
handler body (and hence before any storage call) runs; otherwise
`insert_message` decides between `created` and `duplicate`, both
answered with `\x7b"status":"ok"\x7d`. -/
def webhook (secret : String) (hmacHex : String → List Nat → String)
    (body : List Nat) (xSig : Option String) (p : WebhookPayload)
    (now : Int) (fault : DbFault) (db : List Msg) : WebhookResult :=
  match verify_signature secret hmacHex body xSig with
  | some err => ⟨err, none, db⟩
  | none =>
      if validate_payload p then
        match insert_message db p now fault with
        | .error _ => ⟨.internalError, none, db⟩
        | .ok (true, db1) => ⟨.created, some "ok", db1⟩
        | .ok (false, db1) => ⟨.duplicate, some "ok", db1⟩
      else ⟨.invalidPayload, none, db⟩

/-- The default ordering of `/messages` (`app/main.py`:
`order_by(Message.ts.asc(), Message.message_id.asc())`): timestamp
ascending, then `message_id` ascending.  String comparison follows the
codepoint order, which agrees with SQLite's byte-order BINARY collation
on UTF-8 text. -/
def rowle (a b : Msg) : Prop :=
  a.ts < b.ts ∨ (a.ts = b.ts ∧ a.message_id ≤ b.message_id)

instance : DecidableRel rowle := fun a b => by
  unfold rowle; exact inferInstance

instance : IsTotal Msg rowle := by
  constructor
  intro a b
  rcases lt_trichotomy a.ts b.ts with h | h | h
  · exact Or.inl (Or.inl h)
  · rcases le_total a.message_id b.message_id with hle | hle
    · exact Or.inl (Or.inr ⟨h, hle⟩)
    · exact Or.inr (Or.inr ⟨h.symm, hle⟩)
  · exact Or.inr (Or.inl h)

instance : IsTrans Msg rowle := by
  constructor
  intro a b c hab hbc
  rcases hab with h1 | ⟨e1, l1⟩
  · rcases hbc with h2 | ⟨e2, l2⟩
    · exact Or.inl (h1.trans h2)
    · exact Or.inl (e2 ▸ h1)
  · rcases hbc with h2 | ⟨e2, l2⟩
    · exact Or.inl (by rw [e1]; exact h2)
    · exact Or.inr ⟨e1.trans e2, l1.trans l2⟩

/-- Substring occurrence on character lists (the semantics of SQL
`LIKE` with the pattern wrapped in `%`…`%`, wildcard characters inside
the needle aside, which no claim touches). -/
def containsSub (hay pat : List Char) : Bool :=
  (List.range (hay.length + 1)).any (fun i => pat.isPrefixOf (hay.drop i))

/-- `Message.text.ilike(f"%\x7bq\x7d%")`: case-insensitive substring
match on the text column; a NULL text never matches (SQL three-valued
logic filters the row out). -/
def ilike_match (q : String) (t : Option String) : Bool :=
  match t with
  | none => false
  | some s => containsSub s.toLower.data q.toLower.data

/-- The conjunction of the `/messages` filters (`app/main.py`).  Each
filter is appended only when its parameter is truthy in Python: `None`
and the empty string are both falsy, so an empty `from`/`q` applies no
filter; a datetime is always truthy. -/
def rowMatches (from_ : Option String) (since : Option Int)
    (q : Option String) (m : Msg) : Bool :=
  (match from_ with
   | none => true
   | some f => if f = "" then true else m.from_msisdn == f) &&
  (match since with
   | none => true
   | some s => decide (s ≤ m.ts)) &&
  (match q with
   | none => true
   | some qq => if qq = "" then true else ilike_match qq m.text)

/-- The ORDER BY of `/messages`: sort by `rowle` (timestamp ascending,
`message_id` ascending). -/
def sortRows (l : List Msg) : List Msg :=
  List.insertionSort rowle l

/-- `query.limit(limit).offset(offset)`: OFFSET is applied before
LIMIT. -/
def paginate (l : List Msg) (limit offset : Int) : List Msg :=
  (l.drop offset.toNat).take limit.toNat

/-- `limit = max(1, min(100, limit))` in `get_messages`. -/
def clampLimit (l : Int) : Int := max 1 (min 100 l)

/-- `offset = max(0, offset)` in `get_messages`. -/
def clampOffset (o : Int) : Int := max 0 o

/-- The `/messages` response: the page items, the pre-pagination match
count, and the effective limit and offset used. -/
structure Page where
  data : List Msg
  total : Nat
  limit : Int
  offset : Int
deriving DecidableEq

/-- `app/main.py`, `get_messages`: clamp `limit`/`offset`, filter,
count the filtered rows (the separate `count_query` with the same
filters), order by timestamp then `message_id`, paginate. -/
def get_messages (db : List Msg) (limit offset : Int)
    (from_ : Option String) (since : Option Int) (q : Option String) :
    Page :=
  { data := paginate (sortRows (db.filter (rowMatches from_ since q)))
      (clampLimit limit) (clampOffset offset)
    total := (db.filter (rowMatches from_ since q)).length
    limit := clampLimit limit
    offset := clampOffset offset }

/-- SQL `MIN(ts)` over the whole table: `none` on an empty store. -/
def min_ts (db : List Msg) : Option Int :=
  db.foldl
    (fun acc m =>
      match acc with
      | none => some m.ts
      | some a => some (min a m.ts))
    none

/-- SQL `MAX(ts)` over the whole table: `none` on an empty store. -/
def max_ts (db : List Msg) : Option Int :=
  db.foldl
    (fun acc m =>
      match acc with
      | none => some m.ts
      | some a => some (max a m.ts))
    none

/-- The `GROUP BY from_msisdn` aggregation of the top-senders query:
one pair per distinct sender, carrying `COUNT(message_id)` (every row
has a `message_id`, so this is the row count of the group). -/
def groupPairs (db : List Msg) : List (String × Nat) :=
  ((db.map (fun m => m.from_msisdn)).dedup).map
    (fun s => (s, (db.filter (fun m => m.from_msisdn == s)).length))

/-- Valid outputs of the top-senders query
(`order_by(desc("count")).limit(10)`).  The query orders only by the
count, descending; SQL leaves the relative order of equal-count groups
unspecified, so any arrangement of the groups that is sorted by count
descending, truncated to 10, is a valid answer. -/
def top_senders_valid (db : List Msg) (out : List (String × Nat)) :
    Prop :=
  ∃ full : List (String × Nat),
    full.Perm (groupPairs db) ∧
    full.Sorted (fun a b => b.2 ≤ a.2) ∧
    out = full.take 10

/-- The `/stats` response shape. -/
structure Stats where
  total_messages : Nat
  senders_count : Nat
  messages_per_sender : List (String × Nat)
  first_message_ts : Option Int
  last_message_ts : Option Int
deriving DecidableEq

/-- The fixed record `get_stats` returns when the store is empty. -/
def emptyStats : Stats := ⟨0, 0, [], none, none⟩

/-- `app/main.py`, `get_stats`: when the store holds no rows the fixed
zero/empty/null record is returned; otherwise the total, the distinct
sender count, a valid top-senders list, and the minimum and maximum
timestamps.  Stated as a relation because the top-senders tie order is
not determined by the query. -/
def get_stats_valid (db : List Msg) (s : Stats) : Prop :=
  if db.length = 0 then s = emptyStats
  else
    s.total_messages = db.length ∧
    s.senders_count = ((db.map (fun m => m.from_msisdn)).dedup).length ∧
    top_senders_valid db s.messages_per_sender ∧
    s.first_message_ts = min_ts db ∧
    s.last_message_ts = max_ts db

/-! Concrete instances used by witnesses and counterexamples. -/

/-- A well-formed payload. -/
def p0 : WebhookPayload := ⟨"m1", "+1", "+2", 0, none⟩

/-- A payload whose sender address fails `validate_e164`. -/
def pBad : WebhookPayload := ⟨"m1", "a", "+2", 0, none⟩

/-- A payload whose sender address carries a trailing newline: rejected
by the spec's pattern, accepted by the code's Python regex. -/
def pNl : WebhookPayload := ⟨"m1", "+1\n", "+2", 0, none⟩

/-- Two rows from different senders with one message each: a tie in the
top-senders ordering. -/
def dbTie : List Msg :=
  [⟨"a", "+1", "+9", 0, none, 0⟩, ⟨"b", "+2", "+9", 0, none, 0⟩]

/-- One arrangement of the tied top-senders groups. -/
def tieO1 : List (String × Nat) := [("+1", 1), ("+2", 1)]

/-- The other arrangement of the tied top-senders groups. -/
def tieO2 : List (String × Nat) := [("+2", 1), ("+1", 1)]

/-- A full stats answer for `dbTie` using `tieO1`. -/
def tieS1 : Stats := ⟨2, 2, tieO1, some 0, some 0⟩

/-- A full stats answer for `dbTie` using `tieO2`. -/
def tieS2 : Stats := ⟨2, 2, tieO2, some 0, some 0⟩

/-- Three rows: sender `+1` twice, sender `+2` once — all group counts
distinct. -/
def dbDistinct : List Msg :=
  [⟨"a", "+1", "+9", 0, none, 0⟩, ⟨"b", "+1", "+9", 1, none, 0⟩,
   ⟨"c", "+2", "+9", 2, none, 0⟩]

/-- The unique top-senders list for `dbDistinct`. -/
def topExample : List (String × Nat) := [("+1", 2), ("+2", 1)]

/-- Four rows with ascending timestamps (distinct ids). -/
def ex1 : Msg := ⟨"m1", "+1", "+9", 1, none, 0⟩

/-- Second row of the four-row seed. -/
def ex2 : Msg := ⟨"m2", "+2", "+9", 2, none, 0⟩

/-- Third row of the four-row seed. -/
def ex3 : Msg := ⟨"m3", "+3", "+9", 3, none, 0⟩

/-- Fourth row of the four-row seed. -/
def ex4 : Msg := ⟨"m4", "+4", "+9", 4, none, 0⟩

/-- The four-row seed in scrambled insertion order. -/
def ex4db : List Msg := [ex3, ex1, ex4, ex2]

/-- Two rows with the same timestamp and distinct ids, scrambled. -/
def dbCollide : List Msg :=
  [⟨"b", "+2", "+9", 0, none, 0⟩, ⟨"a", "+1", "+9", 0, none, 0⟩]

/-- The same two rows in the other insertion order. -/
def dbCollide2 : List Msg :=
  [⟨"a", "+1", "+9", 0, none, 0⟩, ⟨"b", "+2", "+9", 0, none, 0⟩]

/-! ## Theorems -/

/-- Two sorted lists that are permutations of each other, over a
relation antisymmetric on the members of the first, are equal. -/
theorem sorted_perm_eq {α : Type} {r : α → α → Prop} :
    ∀ (l1 : List α) (l2 : List α), l1.Perm l2 → l1.Sorted r → l2.Sorted r →
      (∀ a ∈ l1, ∀ b ∈ l1, r a b → r b a → a = b) → l1 = l2 := by
  intro l1
  induction l1 with
  | nil =>
      intro l2 hp _ _ _
      exact hp.nil_eq
  | cons a t1 ih =>
      intro l2 hp h1 h2 anti
      cases l2 with
      | nil => exact absurd hp.eq_nil (List.cons_ne_nil a t1)
      | cons b t2 =>
          have hab : a = b := by
            by_contra hne
            have hbmem : b ∈ a :: t1 := hp.mem_iff.mpr (List.mem_cons_self b t2)
            have hamem : a ∈ b :: t2 := hp.mem_iff.mp (List.mem_cons_self a t1)
            have hb1 : b ∈ t1 := by
              rcases List.mem_cons.mp hbmem with h | h
              · exact absurd h.symm hne
              · exact h
            have ha2 : a ∈ t2 := by
              rcases List.mem_cons.mp hamem with h | h
              · exact absurd h hne
              · exact h
            have hrab : r a b := (List.sorted_cons.mp h1).1 b hb1
            have hrba : r b a := (List.sorted_cons.mp h2).1 a ha2
            exact hne (anti a (List.mem_cons_self a t1) b
              (List.mem_cons_of_mem a hb1) hrab hrba)
          subst hab
          have hp2 : t1.Perm t2 := hp.cons_inv
          have ht : t1 = t2 :=
            ih t2 hp2 (List.sorted_cons.mp h1).2 (List.sorted_cons.mp h2).2
              (fun x hx y hy => anti x (List.mem_cons_of_mem a hx) y
                (List.mem_cons_of_mem a hy))
          rw [ht]

/-- Claim C2 counterexample: on an integrity-constraint violation not
caused by the `message_id` uniqueness constraint (the store is empty,
so no uniqueness violation is possible), `insert_message` still
returns the duplicate signal `false` rather than a `StoreError`,
because the source catches every `IntegrityError`. -/
theorem insert_duplicate_counterexample :
    insert_message ([] : List Msg) p0 0 .integrityFault = .ok (false, []) ∧
    (([] : List Msg).any (fun m => m.message_id == p0.message_id)) = false :=
  ⟨rfl, rfl⟩

/-- Claim C2 (amended): `insert_message` returns `StoreError` exactly
on non-integrity persistence failures; it returns the duplicate signal
(with the store rolled back, unchanged) exactly on an integrity
violation — be it the `message_id` uniqueness conflict or any other
integrity fault — and inserts exactly when no fault fires and the id is
fresh. -/
theorem insert_message_classify :
    ∀ (db : List Msg) (p : WebhookPayload) (now : Int) (fault : DbFault),
      (insert_message db p now fault = .error .storeError ↔
        fault = .connectionFault) ∧
      (insert_message db p now fault = .ok (false, db) ↔
        (fault = .integrityFault ∨
         (fault = .nofault ∧
          db.any (fun m => m.message_id == p.message_id) = true))) ∧
      (insert_message db p now fault = .ok (true, db ++ [mkMsg p now]) ↔
        (fault = .nofault ∧
         db.any (fun m => m.message_id == p.message_id) = false)) := by
  intro db p now fault
  cases fault <;>
    cases h : db.any (fun m => m.message_id == p.message_id) <;>
      simp [insert_message, h]

/-- Claim C7: the `total` of a list response is the number of rows
matching the filters before pagination, independent of `limit` and
`offset`; concretely, `limit=2, offset=1` over the 4-row seed returns
the second and third rows in sort order with `total=4`. -/
theorem pagination_total_pre :
    (∀ (db : List Msg) (l o : Int) (f : Option String) (s : Option Int)
        (q : Option String) (l2 o2 : Int),
      (get_messages db l o f s q).total
        = (db.filter (rowMatches f s q)).length ∧
      (get_messages db l o f s q).total
        = (get_messages db l2 o2 f s q).total) ∧
    get_messages ex4db 2 1 none none none = ⟨[ex2, ex3], 4, 2, 1⟩ := by
  constructor
  · intro db l o f s q l2 o2
    exact ⟨rfl, rfl⟩
  · decide

/-- Claim C8: the effective limit is the requested limit clamped into
`[1,100]`, the effective offset the requested offset clamped into
`[0,∞)`; both are reported in the response, and the page is computed
with exactly those effective values (no request is rejected:
`get_messages` is total). -/
theorem messages_limit_clamped :
    ∀ (db : List Msg) (l o : Int) (f : Option String) (s : Option Int)
      (q : Option String),
      (get_messages db l o f s q).limit = max 1 (min 100 l) ∧
      (get_messages db l o f s q).offset = max 0 o ∧
      1 ≤ (get_messages db l o f s q).limit ∧
      (get_messages db l o f s q).limit ≤ 100 ∧
      0 ≤ (get_messages db l o f s q).offset ∧
      (get_messages db l o f s q).data
        = paginate (sortRows (db.filter (rowMatches f s q)))
            ((get_messages db l o f s q).limit)
            ((get_messages db l o f s q).offset) := by
  intro db l o f s q
  refine ⟨rfl, rfl, ?_, ?_, ?_, rfl⟩
  · exact le_max_left 1 (min 100 l)
  · exact max_le (by norm_num) (min_le_left 100 l)
  · exact le_max_left 0 o

/-- Claim C9: on an empty store, the stats response is well defined
(the fixed record is a valid answer) and every valid answer has
`total_messages = 0`, `senders_count = 0`, an empty top-senders list,
and null first/last timestamps. -/
theorem stats_empty_zero :
    get_stats_valid [] emptyStats ∧
    ∀ s : Stats, get_stats_valid [] s →
      s.total_messages = 0 ∧ s.senders_count = 0 ∧
      s.messages_per_sender = [] ∧ s.first_message_ts = none ∧
      s.last_message_ts = none := by
  constructor
  · simp [get_stats_valid]
  · intro s h
    simp only [get_stats_valid, List.length_nil, if_pos rfl] at h
    rw [h]
    exact ⟨rfl, rfl, rfl, rfl, rfl⟩

/-- Witness for C9: the fixed empty-store record itself. -/
theorem stats_empty_zero_witness :
    emptyStats.total_messages = 0 ∧ emptyStats.senders_count = 0 ∧
    emptyStats.messages_per_sender = [] ∧
    emptyStats.first_message_ts = none ∧
    emptyStats.last_message_ts = none :=
  stats_empty_zero.2 emptyStats stats_empty_zero.1

/-- Claim C10: supplying `from` or `q` as the empty string applies no
filter at all — the response is identical to the one for the same
request with the parameter omitted. -/
theorem empty_filter_param_ignored :
    ∀ (db : List Msg) (l o : Int) (s : Option Int) (q f : Option String),
      get_messages db l o (some "") s q = get_messages db l o none s q ∧
      get_messages db l o f s (some "") = get_messages db l o f s none := by
  intro db l o s q f
  constructor
  · have hf : db.filter (rowMatches (some "") s q)
        = db.filter (rowMatches none s q) :=
      List.filter_congr (fun m _ => by simp [rowMatches])
    simp [get_messages, hf]
  · have hf : db.filter (rowMatches f s (some ""))
        = db.filter (rowMatches f s none) :=
      List.filter_congr (fun m _ => by simp [rowMatches])
    simp [get_messages, hf]

/-- Claim C5 counterexample: two senders with one message each tie on
the count; the top-senders query orders only by count descending with
no tie-break, so both orders of the tied pair are valid answers over
the same store contents — the list is not deterministic. -/
theorem stats_tie_nondeterministic :
    get_stats_valid dbTie tieS1 ∧ get_stats_valid dbTie tieS2 ∧
    tieS1 ≠ tieS2 := by
  have hg : groupPairs dbTie = tieO1 := by decide
  refine ⟨?_, ?_, by decide⟩
  · unfold get_stats_valid
    rw [if_neg (by decide)]
    exact ⟨by decide, by decide, ⟨tieO1, by rw [hg], by decide, by decide⟩,
      by decide, by decide⟩
  · unfold get_stats_valid
    rw [if_neg (by decide)]
    refine ⟨by decide, by decide, ⟨tieO2, ?_, by decide, by decide⟩,
      by decide, by decide⟩
    rw [hg]
    exact List.Perm.swap ("+1", 1) ("+2", 1) []

/-- Claim C5 (amended): the top-senders list is the top-10 by count
descending; the query has no tie-break, so the order of equal-count
senders is unspecified, but whenever all per-sender counts are distinct
the list is uniquely determined (and it is always sorted by count
descending, of length `min 10 #senders`). -/
theorem stats_top_deterministic :
    ∀ (db : List Msg) (o1 o2 : List (String × Nat)),
      top_senders_valid db o1 → top_senders_valid db o2 →
      (groupPairs db).Pairwise (fun a b => a.2 ≠ b.2) →
      o1 = o2 ∧ o1.Sorted (fun a b => b.2 ≤ a.2) ∧
      o1.length = min 10 (groupPairs db).length := by
  intro db o1 o2 h1 h2 hd
  obtain ⟨f1, hp1, hs1, he1⟩ := h1
  obtain ⟨f2, hp2, hs2, he2⟩ := h2
  have hsym : Symmetric (fun a b : String × Nat => a.2 ≠ b.2) :=
    fun _ _ h => Ne.symm h
  have hd1 : f1.Pairwise (fun a b : String × Nat => a.2 ≠ b.2) :=
    hd.perm hp1.symm (fun h => Ne.symm h)
  have anti : ∀ a ∈ f1, ∀ b ∈ f1,
      (fun x y : String × Nat => y.2 ≤ x.2) a b →
      (fun x y : String × Nat => y.2 ≤ x.2) b a → a = b := by
    intro a ha b hb hab hba
    by_contra hne
    exact List.Pairwise.forall hsym hd1 ha hb hne (le_antisymm hba hab)
  have hf : f1 = f2 := sorted_perm_eq f1 f2 (hp1.trans hp2.symm) hs1 hs2 anti
  refine ⟨by rw [he1, he2, hf], ?_, ?_⟩
  · rw [he1]
    exact List.Pairwise.sublist (List.take_sublist 10 f1) hs1
  · rw [he1, List.length_take, hp1.length_eq]

/-- Witness for C5 (amended) at a store whose sender counts are
distinct. -/
theorem stats_top_deterministic_witness :
    topExample = topExample ∧
    topExample.Sorted (fun a b => b.2 ≤ a.2) ∧
    topExample.length = min 10 (groupPairs dbDistinct).length := by
  have hg : groupPairs dbDistinct = topExample := by decide
  have h : top_senders_valid dbDistinct topExample :=
    ⟨topExample, by rw [hg], by decide, by decide⟩
  exact stats_top_deterministic dbDistinct topExample topExample h h
    (by rw [hg]; decide)

/-- Claim C6: with no explicit order, the returned page is sorted by
timestamp ascending with `message_id` ascending as the tie-break, and
— the ids in the store being unique — the whole response is invariant
under the order in which the rows were inserted, even when timestamps
collide. -/
theorem messages_default_order :
    ∀ (db : List Msg) (l o : Int) (f : Option String) (s : Option Int)
      (q : Option String),
      ((get_messages db l o f s q).data).Sorted rowle ∧
      (∀ db' : List Msg, db.Perm db' →
        db.Pairwise (fun a b => a.message_id ≠ b.message_id) →
        get_messages db l o f s q = get_messages db' l o f s q) := by
  intro db l o f s q
  constructor
  · have hs : (sortRows (db.filter (rowMatches f s q))).Sorted rowle :=
      List.sorted_insertionSort rowle _
    have hdata : (get_messages db l o f s q).data
        = paginate (sortRows (db.filter (rowMatches f s q)))
            (clampLimit l) (clampOffset o) := rfl
    rw [hdata]
    exact List.Pairwise.sublist
      ((List.take_sublist _ _).trans (List.drop_sublist _ _)) hs
  · intro db' hperm hpair
    have hfp : (db.filter (rowMatches f s q)).Perm
        (db'.filter (rowMatches f s q)) := hperm.filter _
    have hs1 : (sortRows (db.filter (rowMatches f s q))).Sorted rowle :=
      List.sorted_insertionSort rowle _
    have hs2 : (sortRows (db'.filter (rowMatches f s q))).Sorted rowle :=
      List.sorted_insertionSort rowle _
    have hperm2 : (sortRows (db.filter (rowMatches f s q))).Perm
        (sortRows (db'.filter (rowMatches f s q))) :=
      (List.perm_insertionSort rowle _).trans
        (hfp.trans (List.perm_insertionSort rowle _).symm)
    have hmemdb : ∀ a ∈ sortRows (db.filter (rowMatches f s q)), a ∈ db :=
      fun a ha =>
        List.mem_of_mem_filter
          ((List.perm_insertionSort rowle _).mem_iff.mp ha)
    have hsym : Symmetric (fun a b : Msg => a.message_id ≠ b.message_id) :=
      fun _ _ h => Ne.symm h
    have anti : ∀ a ∈ sortRows (db.filter (rowMatches f s q)),
        ∀ b ∈ sortRows (db.filter (rowMatches f s q)),
        rowle a b → rowle b a → a = b := by
      intro a ha b hb hab hba
      by_contra hne
      have hne2 : a.message_id ≠ b.message_id :=
        List.Pairwise.forall hsym hpair (hmemdb a ha) (hmemdb b hb) hne
      rcases hab with h1 | ⟨e1, l1⟩
      · rcases hba with h2 | ⟨e2, l2⟩
        · exact lt_irrefl _ (h1.trans h2)
        · rw [e2] at h1
          exact lt_irrefl _ h1
      · rcases hba with h2 | ⟨e2, l2⟩
        · rw [e1] at h2
          exact lt_irrefl _ h2
        · exact hne2 (le_antisymm l1 l2)
    have heq : sortRows (db.filter (rowMatches f s q))
        = sortRows (db'.filter (rowMatches f s q)) :=
      sorted_perm_eq _ _ hperm2 hs1 hs2 anti
    unfold get_messages
    rw [heq, hfp.length_eq]

/-- Witness for C6: two rows with colliding timestamps, inserted in
either order, give the same sorted page. -/
theorem messages_default_order_witness :
    ((get_messages dbCollide 50 0 none none none).data).Sorted rowle ∧
    get_messages dbCollide 50 0 none none none
      = get_messages dbCollide2 50 0 none none none := by
  refine ⟨(messages_default_order dbCollide 50 0 none none none).1, ?_⟩
  refine (messages_default_order dbCollide 50 0 none none none).2
    dbCollide2 ?_ (by decide)
  unfold dbCollide dbCollide2
  exact List.Perm.swap _ _ _

/-- Claim C1: ingesting a valid message twice with valid signatures
(its id fresh in the store) stores exactly one row: the first call
reports `created`, the second `duplicate`, both answer with the success
body, and the second call changes nothing in the store — in particular
it neither adds a second row nor mutates the first row's fields. -/
theorem ingest_idempotent :
    ∀ (secret : String) (hmacHex : String → List Nat → String)
      (body1 body2 : List Nat) (p : WebhookPayload) (now1 now2 : Int)
      (db : List Msg),
      secret ≠ "" →
      hmacHex secret body1 ≠ "" →
      hmacHex secret body2 ≠ "" →
      validate_payload p = true →
      db.any (fun m => m.message_id == p.message_id) = false →
      (let r1 := webhook secret hmacHex body1 (some (hmacHex secret body1))
          p now1 .nofault db
       let r2 := webhook secret hmacHex body2 (some (hmacHex secret body2))
          p now2 .nofault r1.db
       r1.outcome = .created ∧ r1.body = some "ok" ∧
       r2.outcome = .duplicate ∧ r2.body = some "ok" ∧
       r2.db = r1.db ∧
       (r1.db.filter (fun m => m.message_id == p.message_id)).length = 1) := by
  intro secret hmacHex body1 body2 p now1 now2 db hsec hne1 hne2 hval hfresh
  have hv1 : verify_signature secret hmacHex body1
      (some (hmacHex secret body1)) = none := by
    simp [verify_signature, hsec, hne1]
  have hv2 : verify_signature secret hmacHex body2
      (some (hmacHex secret body2)) = none := by
    simp [verify_signature, hsec, hne2]
  have h1 : webhook secret hmacHex body1 (some (hmacHex secret body1))
      p now1 .nofault db = ⟨.created, some "ok", db ++ [mkMsg p now1]⟩ := by
    simp [webhook, hv1, hval, insert_message, hfresh]
  have hany2 : (db ++ [mkMsg p now1]).any
      (fun m => m.message_id == p.message_id) = true := by
    simp [List.any_append, mkMsg]
  have h2 : webhook secret hmacHex body2 (some (hmacHex secret body2))
      p now2 .nofault (db ++ [mkMsg p now1])
      = ⟨.duplicate, some "ok", db ++ [mkMsg p now1]⟩ := by
    simp [webhook, hv2, hval, insert_message, hany2]
  have hnil : db.filter (fun m => m.message_id == p.message_id) = [] := by
    rw [List.filter_eq_nil_iff]
    intro a ha
    exact (List.any_eq_false.mp hfresh) a ha
  have hfilter : ((db ++ [mkMsg p now1]).filter
      (fun m => m.message_id == p.message_id)).length = 1 := by
    rw [List.filter_append, hnil]
    simp [mkMsg]
  dsimp only
  rw [h1]
  dsimp only
  rw [h2]
  exact ⟨rfl, rfl, rfl, rfl, rfl, hfilter⟩

/-- Witness for C1 at a concrete secret, digest function, payload and
empty store. -/
theorem ingest_idempotent_witness :
    (let r1 := webhook "k" (fun _ _ => "aa") [] (some "aa") p0 0
        .nofault []
     let r2 := webhook "k" (fun _ _ => "aa") [] (some "aa") p0 1
        .nofault r1.db
     r1.outcome = .created ∧ r1.body = some "ok" ∧
     r2.outcome = .duplicate ∧ r2.body = some "ok" ∧
     r2.db = r1.db ∧
     (r1.db.filter (fun m => m.message_id == p0.message_id)).length = 1) :=
  ingest_idempotent "k" (fun _ _ => "aa") [] [] p0 0 1 []
    (by decide) (by decide) (by decide) (by decide) (by decide)

/-- Claim C4: a request that supplies no signature, or a signature
different from the digest the verifier computes over the exact raw
body with the configured (non-empty) secret, is rejected as an
authentication failure with the store untouched — whatever the payload
and whatever the storage layer would have done. -/
theorem signature_rejected_no_store :
    ∀ (secret : String) (hmacHex : String → List Nat → String)
      (body : List Nat) (xSig : Option String) (p : WebhookPayload)
      (now : Int) (fault : DbFault) (db : List Msg),
      secret ≠ "" →
      (xSig = none ∨ ∃ s, xSig = some s ∧ s ≠ hmacHex secret body) →
      webhook secret hmacHex body xSig p now fault db
        = ⟨.invalidSignature, none, db⟩ := by
  intro secret hmacHex body xSig p now fault db hsec hbad
  rcases hbad with h | ⟨s, hx, hne⟩
  · subst h
    simp [webhook, verify_signature, hsec]
  · subst hx
    by_cases hse : s = ""
    · subst hse
      simp [webhook, verify_signature, hsec]
    · simp [webhook, verify_signature, hsec, hse, Ne.symm hne]

/-- Witness for C4: a wrong signature over a concrete request. -/
theorem signature_rejected_no_store_witness :
    webhook "k" (fun _ _ => "aa") [] (some "bb") p0 0 .nofault []
      = ⟨.invalidSignature, none, []⟩ :=
  signature_rejected_no_store "k" (fun _ _ => "aa") [] (some "bb") p0 0
    .nofault [] (by decide) (Or.inr ⟨"bb", rfl, by decide⟩)

/-- Claim C3 counterexample: the payload `pNl` carries the sender
address `"+1\n"`, which does not match the spec's pattern (a leading
`+`, one or more digits, nothing else), yet the code's validator
accepts it — Python's `$` also matches just before a trailing newline —
so a correctly signed request with it is not rejected: it is stored,
and the persisted row's sender address violates the pattern. -/
theorem validation_trailing_newline :
    spec_e164 pNl.from_msisdn = false ∧
    validate_e164 pNl.from_msisdn = true ∧
    webhook "k" (fun _ _ => "aa") [] (some "aa") pNl 0 .nofault []
      = ⟨.created, some "ok", [mkMsg pNl 0]⟩ := by
  decide

/-- Claim C3 (amended): a payload whose `from` or `to` fails the code's
address check (`re.match(r'^\+\d+$', ·)`, which accepts a leading `+`,
one or more digits, and at most one trailing newline) is rejected as a
validation failure with the store untouched, before any storage call
(whatever the storage layer would have done); consequently, ingestion
preserves the invariant that every persisted row's addresses pass that
check. -/
theorem validation_gating :
    ∀ (secret : String) (hmacHex : String → List Nat → String)
      (body : List Nat) (p : WebhookPayload) (now : Int) (fault : DbFault)
      (db : List Msg),
      secret ≠ "" → hmacHex secret body ≠ "" →
      ((validate_e164 p.from_msisdn = false ∨
        validate_e164 p.to_msisdn = false) →
        webhook secret hmacHex body (some (hmacHex secret body)) p now
          fault db = ⟨.invalidPayload, none, db⟩) ∧
      (∀ xSig : Option String,
        (∀ m ∈ db, validate_e164 m.from_msisdn = true ∧
          validate_e164 m.to_msisdn = true) →
        ∀ m ∈ (webhook secret hmacHex body xSig p now fault db).db,
          validate_e164 m.from_msisdn = true ∧
          validate_e164 m.to_msisdn = true) := by
  intro secret hmacHex body p now fault db hsec hne
  constructor
  · intro hbad
    have hval : validate_payload p = false := by
      rcases hbad with h | h <;> simp [validate_payload, h]
    have hv : verify_signature secret hmacHex body
        (some (hmacHex secret body)) = none := by
      simp [verify_signature, hsec, hne]
    simp [webhook, hv, hval]
  · intro xSig hdb m hm
    have hcases : (webhook secret hmacHex body xSig p now fault db).db = db ∨
        ((webhook secret hmacHex body xSig p now fault db).db
          = db ++ [mkMsg p now] ∧ validate_payload p = true) := by
      unfold webhook
      cases verify_signature secret hmacHex body xSig with
      | some e => exact Or.inl rfl
      | none =>
          by_cases hval : validate_payload p
          · rw [if_pos hval]
            cases fault with
            | connectionFault => exact Or.inl rfl
            | integrityFault => exact Or.inl rfl
            | nofault =>
                by_cases hdup :
                    db.any (fun mm => mm.message_id == p.message_id)
                · left
                  simp [insert_message, hdup]
                · right
                  constructor
                  · simp [insert_message, hdup]
                  · exact hval
          · rw [if_neg hval]
            exact Or.inl rfl
    rcases hcases with hc | ⟨hc, hval⟩
    · rw [hc] at hm
      exact hdb m hm
    · rw [hc] at hm
      have he164 : validate_e164 p.from_msisdn = true ∧
          validate_e164 p.to_msisdn = true := by
        unfold validate_payload at hval
        simp only [Bool.and_eq_true] at hval
        exact ⟨hval.1.1.2, hval.1.2⟩
      rcases List.mem_append.mp hm with hm | hm
      · exact hdb m hm
      · rcases List.mem_singleton.mp hm with rfl
        exact he164

/-- Witness for C3 (amended): a payload with an invalid sender address
is rejected with the store untouched. -/
theorem validation_gating_witness :
    webhook "k" (fun _ _ => "aa") [] (some "aa") pBad 0 .nofault []
      = ⟨.invalidPayload, none, []⟩ :=
  (validation_gating "k" (fun _ _ => "aa") [] pBad 0 .nofault []
    (by decide) (by decide)).1 (Or.inl (by decide))
